import Mathlib

/-!
# Verification of the kinematic character controller (`src/plugin.rs`)

Shallow embedding of the 2D character-controller plugin: the contact
classifier (`update_grounded`), the movement responder (`movement`), the
damping stage (`apply_movement_damping`), the input translators
(`keyboard_input`, `gamepad_input`) and the construction code
(`CharacterControllerBundle::new`, `MovementBundle::new`).

The physics scalar type (`Scalar`, an IEEE float in the source) is embedded
as `ℚ`; the literals appearing in the source (`0.5`, `0.99`, `0.9`, `30.0`,
`7.0`, `20.0`) are exact in ℚ.  The `u32` wall-jump counter is embedded as
ℕ with its increment taken modulo `2 ^ 32` (release-build wrapping
semantics).  The external physics engine's shape casts
are abstracted as boolean hit outcomes per probe direction, and the input
devices as per-tick snapshots, mirroring exactly the data the source reads.
-/

/-- Contact classification, from `enum Grounded` in `plugin.rs`
(`None`, `Ground`, `LeftWall`, `RightWall`). -/
inductive Grounded where
  | None
  | Ground
  | LeftWall
  | RightWall
deriving DecidableEq, Repr

/-- Per-entity wall-jump state, from `struct CharacterController`
(`wall_jumps: u32`, `last_wall: Option<Grounded>`).  The `u32` counter is
embedded as a natural number with every arithmetic operation the source
performs on it taken modulo `2 ^ 32`: the `wall_jumps += 1` in `movement`
wraps to 0 at `u32::MAX`, the release-build semantics of the Rust
increment. -/
structure CharacterController where
  wall_jumps : ℕ
  last_wall : Option Grounded
deriving DecidableEq, Repr

/-- Linear velocity of the body, from avian2d's `LinearVelocity` as used by
the plugin (only `.x` and `.y` are read or written). -/
structure LinearVelocity where
  x : ℚ
  y : ℚ
deriving DecidableEq, Repr

/-- An event sent for a movement input action, from `enum MovementAction`. -/
inductive MovementAction where
  | Move (direction : ℚ)
  | Jump
deriving DecidableEq, Repr

/-- The per-controller tunables read by the `movement` system:
`MovementAcceleration(Scalar)` and `JumpImpulse(Scalar)`. -/
structure MovementParams where
  acceleration : ℚ
  jump_impulse : ℚ
deriving DecidableEq, Repr

/-- One iteration of the inner loop of the `movement` system in
`plugin.rs`: processing a single `MovementAction` event against a single
controller, given the current `Grounded` classification, the tunables and
`delta_time`.  Returns the updated velocity and wall-jump state. -/
def movementStep (p : MovementParams) (delta_time : ℚ) (grounded : Grounded)
    (event : MovementAction) (v : LinearVelocity) (c : CharacterController) :
    LinearVelocity × CharacterController :=
  match event with
  | MovementAction.Move direction =>
      ({ v with x := v.x + direction * p.acceleration * delta_time }, c)
  | MovementAction.Jump =>
      match grounded with
      | Grounded.Ground =>
          ({ v with y := p.jump_impulse },
           { wall_jumps := 0, last_wall := none })
      | Grounded.LeftWall | Grounded.RightWall =>
          if c.wall_jumps = 0 ∨ c.last_wall ≠ some grounded then
            ({ x := if grounded = Grounded.LeftWall then p.jump_impulse * 0.5
                    else -p.jump_impulse * 0.5,
               y := p.jump_impulse },
             { wall_jumps := (c.wall_jumps + 1) % 2 ^ 32,
               last_wall := some grounded })
          else (v, c)
      | Grounded.None => (v, c)

/-- The outcomes of the three directional shape casts issued by
`update_grounded` for one controller: downward (`Dir2::NEG_Y`), rightward
(`Dir2::X`) and leftward (`Dir2::NEG_X`).  `true` means the cast returned
`Some(hit)`. -/
structure ProbeHits where
  down : Bool
  right : Bool
  left : Bool
deriving DecidableEq, Repr

/-- The body of `update_grounded` for one controller: the three probes are
tried in source order (down, then right, then left); the first that hits
sets the classification and `continue`s past the remaining probes; if none
hits the classification is `Grounded::None`. -/
def update_grounded (h : ProbeHits) : Grounded :=
  if h.down then Grounded.Ground
  else if h.right then Grounded.RightWall
  else if h.left then Grounded.LeftWall
  else Grounded.None

/-- The body of `apply_movement_damping` for one controller:
`linear_velocity.x *= damping_factor.0`, with `y` untouched. -/
def apply_movement_damping (damping_factor : ℚ) (v : LinearVelocity) :
    LinearVelocity :=
  { v with x := v.x * damping_factor }

/-- The per-tick keyboard snapshot read by `keyboard_input`: the pressed
state of the four horizontal keys and the just-pressed edge of `Space`. -/
structure KeyboardSnapshot where
  keyA : Bool
  arrowLeft : Bool
  keyD : Bool
  arrowRight : Bool
  space_just_pressed : Bool
deriving DecidableEq, Repr

/-- The net horizontal keyboard input computed by `keyboard_input`:
`right as i8 - left as i8` where `left` is `A ∨ ArrowLeft` pressed and
`right` is `D ∨ ArrowRight` pressed, converted to `Scalar`. -/
def kbDirection (k : KeyboardSnapshot) : ℚ :=
  let left := k.keyA || k.arrowLeft
  let right := k.keyD || k.arrowRight
  (((if right then 1 else 0) - (if left then 1 else 0) : ℤ) : ℚ)

/-- The `keyboard_input` system: emits `Move(direction)` when the net
horizontal input is nonzero, then `Jump` when `Space` was just pressed.
The returned list is what it appends to the tick's event queue. -/
def keyboard_input (k : KeyboardSnapshot) : List MovementAction :=
  (if kbDirection k ≠ 0 then [MovementAction.Move (kbDirection k)] else []) ++
  (if k.space_just_pressed then [MovementAction.Jump] else [])

/-- The per-tick snapshot of one connected gamepad read by `gamepad_input`:
the left-stick X axis value as the `Axis` resource reports it
(`None` when the axis is absent), and the just-pressed edge of the South
button. -/
structure GamepadSnapshot where
  left_stick_x : Option ℚ
  south_just_pressed : Bool
deriving DecidableEq, Repr

/-- The body of the `gamepad_input` loop for one gamepad: emits `Move(x)`
whenever `axes.get(axis_lx)` returns `Some(x)`, then `Jump` when the South
button was just pressed. -/
def gamepadEvents (g : GamepadSnapshot) : List MovementAction :=
  (match g.left_stick_x with
   | some x => [MovementAction.Move x]
   | none => []) ++
  (if g.south_just_pressed then [MovementAction.Jump] else [])

/-- The `gamepad_input` system: iterates over all connected gamepads,
emitting each one's events in order. -/
def gamepad_input (gs : List GamepadSnapshot) : List MovementAction :=
  gs.foldr (fun g acc => gamepadEvents g ++ acc) []

/-- A collider shape handed to `CharacterControllerBundle::new` by the
host (avian2d `Collider`): an intrinsic extent along each axis together
with the current scaling factor, which is all the construction code
touches (`clone` and `set_scale`). -/
structure Collider where
  size_x : ℚ
  size_y : ℚ
  scale_x : ℚ
  scale_y : ℚ
deriving DecidableEq, Repr

/-- avian2d's `Collider::set_scale(scale, subdivisions)`: replaces the
shape's scaling factor (the subdivision count only affects curved-shape
tessellation, which has no observable effect in this model). -/
def Collider.set_scale (c : Collider) (sx sy : ℚ) : Collider :=
  { c with scale_x := sx, scale_y := sy }

/-- A collider is degenerate when its scaled extent is zero along some
axis. -/
def Collider.degenerate (c : Collider) : Prop :=
  c.size_x * c.scale_x = 0 ∨ c.size_y * c.scale_y = 0

instance (c : Collider) : Decidable c.degenerate := by
  unfold Collider.degenerate
  infer_instance

/-- `struct MovementBundle`: the movement components attached to a
controller (`Grounded`, acceleration, damping, jump impulse, max slope
angle). -/
structure MovementBundle where
  grounded : Grounded
  acceleration : ℚ
  damping : ℚ
  jump_impulse : ℚ
  max_slope_angle : ℚ
deriving DecidableEq, Repr

/-- `MovementBundle::new`: stores the four tunables with
`grounded = Grounded::None`. -/
def MovementBundle.new (acceleration damping jump_impulse max_slope_angle : ℚ) :
    MovementBundle :=
  { grounded := Grounded.None
    acceleration := acceleration
    damping := damping
    jump_impulse := jump_impulse
    max_slope_angle := max_slope_angle }

/-- The float constant `PI` used only in `MovementBundle::default`'s
`max_slope_angle = PI * 0.45`; its exact value is irrelevant to every
property proved here (the field is never consulted by the logic), so it is
embedded as a fixed rational approximation of π. -/
def PI : ℚ := 3.14159265358979

/-- `MovementBundle::default`: `Self::new(30.0, 0.9, 7.0, PI * 0.45)`. -/
def MovementBundle.default : MovementBundle :=
  MovementBundle.new 30 0.9 7 (PI * 0.45)

/-- `struct CharacterControllerBundle` (the components the model
observes: the wall-jump state, the collider, the derived caster shape and
the movement bundle; `RigidBody::Dynamic` and `LockedAxes` carry no data). -/
structure CharacterControllerBundle where
  character_controller : CharacterController
  collider : Collider
  caster_shape : Collider
  movement : MovementBundle
deriving DecidableEq, Repr

/-- `CharacterControllerBundle::new(collider)`: clones the collider,
scales the clone by `Vector::ONE * 0.99` to obtain the caster shape, and
assembles the bundle with `wall_jumps = 0`, `last_wall = None` and the
default movement bundle.  It is a total function: no validation of the
collider is performed and no failure path exists. -/
def CharacterControllerBundle.new (collider : Collider) :
    CharacterControllerBundle :=
  let caster_shape := collider.set_scale 0.99 0.99
  { character_controller := { wall_jumps := 0, last_wall := none }
    collider := collider
    caster_shape := caster_shape
    movement := MovementBundle.default }

/-- Runs a sequence of movement events through `movementStep`, each event
paired with the `Grounded` classification in force when it is processed
(the classifier recomputes contact between ticks; the responder never
changes it). -/
def runEvents (p : MovementParams) (delta_time : ℚ) :
    List (Grounded × MovementAction) →
    LinearVelocity × CharacterController → LinearVelocity × CharacterController
  | [], s => s
  | (g, e) :: rest, (v, c) =>
      runEvents p delta_time rest (movementStep p delta_time g e v c)

/-- The wall-jump bookkeeping invariant: the jump counter is zero exactly
when no wall is recorded. -/
def wallInv (c : CharacterController) : Prop :=
  c.wall_jumps = 0 ↔ c.last_wall = none


/-! ## Theorems -/

/-- C2: a `Jump` event processed while `contact == Ground` sets
`velocity.y` to exactly `jump_impulse` (overwriting it), leaves
`velocity.x` alone, and resets `wall_jumps` to 0 and `last_wall` to
`None`, regardless of the prior wall-jump state. -/
theorem ground_jump_resets (p : MovementParams) (dt : ℚ) (v : LinearVelocity)
    (c : CharacterController) :
    movementStep p dt Grounded.Ground MovementAction.Jump v c =
      ({ x := v.x, y := p.jump_impulse },
       { wall_jumps := 0, last_wall := none }) := rfl

/-- C5: a `Jump` event processed while `contact == None` changes nothing:
velocity and wall-jump state are returned exactly as they were. -/
theorem air_jump_noop (p : MovementParams) (dt : ℚ) (v : LinearVelocity)
    (c : CharacterController) :
    movementStep p dt Grounded.None MovementAction.Jump v c = (v, c) := rfl

/-- C6: a `Move(direction)` event updates horizontal velocity by exactly
`velocity.x += direction * acceleration * delta_time`, with no clamp and
independently of the contact state; in particular with
`acceleration = 30` and `delta_time = 0.1`, `Move(+1)` increases
`velocity.x` by exactly 3. -/
theorem move_accelerates (p : MovementParams) (dt : ℚ) (g : Grounded)
    (v : LinearVelocity) (c : CharacterController) (d : ℚ) :
    movementStep p dt g (MovementAction.Move d) v c =
      ({ x := v.x + d * p.acceleration * dt, y := v.y }, c) ∧
    (movementStep { acceleration := 30, jump_impulse := p.jump_impulse }
        0.1 g (MovementAction.Move 1) v c).1.x = v.x + 3 := by
  constructor
  · rfl
  · show v.x + 1 * 30 * 0.1 = v.x + 3
    norm_num

/-- C7: the damping stage sets `velocity.x` to
`velocity.x * damping_factor` and leaves `velocity.y` unchanged; with
`damping_factor = 0.5` and `velocity.x = 10` the result is
`velocity.x = 5` with `velocity.y` identical. -/
theorem damping_spec (f : ℚ) (v : LinearVelocity) :
    apply_movement_damping f v = { x := v.x * f, y := v.y } ∧
    apply_movement_damping 0.5 { x := 10, y := v.y } = { x := 5, y := v.y } := by
  constructor
  · rfl
  · show ({ x := 10 * 0.5, y := v.y } : LinearVelocity) = { x := 5, y := v.y }
    norm_num

/-- C4: the contact classifier probes in the fixed order down, right,
left; the first probe that hits determines the contact (`Ground`,
`RightWall`, `LeftWall` respectively), skipping the rest; if no probe
hits the contact is `None`; and whenever the downward probe and a lateral
probe would both hit, the result is `Ground`. -/
theorem classifier_priority (h : ProbeHits) :
    (h.down = true → update_grounded h = Grounded.Ground) ∧
    (h.down = false → h.right = true → update_grounded h = Grounded.RightWall) ∧
    (h.down = false → h.right = false → h.left = true →
      update_grounded h = Grounded.LeftWall) ∧
    (h.down = false → h.right = false → h.left = false →
      update_grounded h = Grounded.None) ∧
    (h.down = true → (h.right = true ∨ h.left = true) →
      update_grounded h = Grounded.Ground) := by
  rcases h with ⟨d, r, l⟩
  cases d <;> cases r <;> cases l <;> simp [update_grounded]

/-- Witness for C4 at a concrete input: both the downward and the
rightward probe hit, and the classification is `Ground`. -/
theorem classifier_priority_witness :
    update_grounded { down := true, right := true, left := false } =
      Grounded.Ground :=
  (classifier_priority { down := true, right := true, left := false }).2.2.2.2
    rfl (Or.inl rfl)

/-- C1 counterexample: with the counter at `u32::MAX = 4294967295`, an
applied wall jump does not increment `wall_jumps` by 1: the `u32`
increment wraps it to 0, which differs from `4294967295 + 1`. -/
theorem wall_jump_spec_counterexample :
    (movementStep { acceleration := 30, jump_impulse := 7 } 0.1
        Grounded.LeftWall MovementAction.Jump { x := 0, y := 0 }
        { wall_jumps := 4294967295, last_wall := none }).2.wall_jumps = 0 ∧
    (4294967295 : ℕ) + 1 ≠ 0 := by
  constructor
  · decide
  · decide

/-- C1 (amended): a `Jump` processed while the contact is a wall is
applied if and only if `wall_jumps = 0` or `last_wall ≠ some contact`;
when applied it sets `velocity.y = jump_impulse`, sets `velocity.x` to
`+jump_impulse * 0.5` off a `LeftWall` and `-jump_impulse * 0.5` off a
`RightWall`, sets `wall_jumps` to `(wall_jumps + 1) % 2 ^ 32` — the `u32`
wrapping increment, equal to plus one except at `u32::MAX` where it wraps
to 0 — and records the wall; when not applied, velocity and wall-jump
state are returned unchanged. -/
theorem wall_jump_spec (p : MovementParams) (dt : ℚ) (v : LinearVelocity)
    (c : CharacterController) (w : Grounded)
    (hw : w = Grounded.LeftWall ∨ w = Grounded.RightWall) :
    (c.wall_jumps = 0 ∨ c.last_wall ≠ some w →
      movementStep p dt w MovementAction.Jump v c =
        ({ x := if w = Grounded.LeftWall then p.jump_impulse * 0.5
                else -p.jump_impulse * 0.5,
           y := p.jump_impulse },
         { wall_jumps := (c.wall_jumps + 1) % 2 ^ 32, last_wall := some w })) ∧
    (¬(c.wall_jumps = 0 ∨ c.last_wall ≠ some w) →
      movementStep p dt w MovementAction.Jump v c = (v, c)) := by
  rcases hw with rfl | rfl <;>
    exact ⟨fun h => by simp only [movementStep, if_pos h],
           fun h => by simp only [movementStep, if_neg h]⟩

/-- Witness for C1 at a concrete input: in the initial wall-jump state a
jump off a `LeftWall` is applied, with the lateral kick
`+jump_impulse * 0.5`. -/
theorem wall_jump_spec_witness :
    movementStep { acceleration := 30, jump_impulse := 7 } 0.1
      Grounded.LeftWall MovementAction.Jump { x := 0, y := 0 }
      { wall_jumps := 0, last_wall := none } =
      ({ x := 7 * 0.5, y := 7 },
       { wall_jumps := 1, last_wall := some Grounded.LeftWall }) := by
  have h := (wall_jump_spec { acceleration := 30, jump_impulse := 7 } 0.1
      { x := 0, y := 0 } { wall_jumps := 0, last_wall := none }
      Grounded.LeftWall (Or.inl rfl)).1 (Or.inl rfl)
  simpa using h

/-- Processing one `Jump` event against the paired velocity and wall-jump
state. -/
def jumpStep (p : MovementParams) (dt : ℚ) (g : Grounded)
    (s : LinearVelocity × CharacterController) :
    LinearVelocity × CharacterController :=
  movementStep p dt g MovementAction.Jump s.1 s.2

/-- C3 counterexample: from the controller state
`wall_jumps = 1, last_wall = some RightWall` (reachable, e.g. right after
a wall jump off the right wall), the FIRST of two consecutive `Jump`
events while contact stays `RightWall` does not apply the impulse: the
state is returned unchanged and `velocity.y` is not set to the jump
impulse, refuting the claim for arbitrary starting states. -/
theorem double_right_wall_jump_counterexample :
    jumpStep { acceleration := 30, jump_impulse := 7 } 0.1 Grounded.RightWall
      ({ x := 0, y := 0 }, { wall_jumps := 1, last_wall := some Grounded.RightWall }) =
      ({ x := 0, y := 0 }, { wall_jumps := 1, last_wall := some Grounded.RightWall }) ∧
    (jumpStep { acceleration := 30, jump_impulse := 7 } 0.1 Grounded.RightWall
      ({ x := 0, y := 0 }, { wall_jumps := 1, last_wall := some Grounded.RightWall })).1.y ≠ 7 := by
  constructor
  · rfl
  · decide

/-- C3 (amended): provided the starting counter is below `u32::MAX` (so
the `u32` increment does not wrap) and the starting state permits a wall
jump off the right wall (`wall_jumps = 0` or
`last_wall ≠ some RightWall`), two consecutive `Jump` events while
contact stays `RightWall` apply the impulse on the first (setting
`velocity.y = jump_impulse`, the lateral kick, and incrementing
`wall_jumps` by one) and leave velocity and wall-jump state unchanged on
the second; and whenever a `Jump` applied off `LeftWall` is followed by a
`Jump` while contact is `RightWall` with no intervening ground contact,
the impulse is applied both times (the second jump performs the wrapping
increment `(wall_jumps + 1) % 2 ^ 32`). -/
theorem jump_sequences (p : MovementParams) (dt : ℚ) (v : LinearVelocity)
    (c : CharacterController) :
    (c.wall_jumps + 1 < 2 ^ 32 →
      (c.wall_jumps = 0 ∨ c.last_wall ≠ some Grounded.RightWall) →
      (jumpStep p dt Grounded.RightWall (v, c)).1.y = p.jump_impulse ∧
      (jumpStep p dt Grounded.RightWall (v, c)).1.x = -p.jump_impulse * 0.5 ∧
      (jumpStep p dt Grounded.RightWall (v, c)).2.wall_jumps = c.wall_jumps + 1 ∧
      jumpStep p dt Grounded.RightWall (jumpStep p dt Grounded.RightWall (v, c)) =
        jumpStep p dt Grounded.RightWall (v, c)) ∧
    ((c.wall_jumps = 0 ∨ c.last_wall ≠ some Grounded.LeftWall) →
      (jumpStep p dt Grounded.LeftWall (v, c)).1.y = p.jump_impulse ∧
      (jumpStep p dt Grounded.RightWall (jumpStep p dt Grounded.LeftWall (v, c))).1.y =
        p.jump_impulse ∧
      (jumpStep p dt Grounded.RightWall (jumpStep p dt Grounded.LeftWall (v, c))).1.x =
        -p.jump_impulse * 0.5 ∧
      (jumpStep p dt Grounded.RightWall (jumpStep p dt Grounded.LeftWall (v, c))).2.wall_jumps =
        ((jumpStep p dt Grounded.LeftWall (v, c)).2.wall_jumps + 1) % 2 ^ 32) := by
  constructor
  · intro hb h
    have hmod : (c.wall_jumps + 1) % 4294967296 = c.wall_jumps + 1 :=
      Nat.mod_eq_of_lt (by simpa using hb)
    refine ⟨?_, ?_, ?_, ?_⟩ <;>
      simp [jumpStep, movementStep, if_pos h, hmod]
  · intro h
    refine ⟨?_, ?_, ?_, ?_⟩ <;> simp [jumpStep, movementStep, if_pos h]

/-- Witness for C3 (amended) at a concrete input: from the initial
wall-jump state, the second of two consecutive right-wall jumps is a
no-op. -/
theorem jump_sequences_witness :
    jumpStep { acceleration := 30, jump_impulse := 7 } 0.1 Grounded.RightWall
      (jumpStep { acceleration := 30, jump_impulse := 7 } 0.1 Grounded.RightWall
        ({ x := 0, y := 0 }, { wall_jumps := 0, last_wall := none })) =
      jumpStep { acceleration := 30, jump_impulse := 7 } 0.1 Grounded.RightWall
        ({ x := 0, y := 0 }, { wall_jumps := 0, last_wall := none }) :=
  ((jump_sequences { acceleration := 30, jump_impulse := 7 } 0.1
      { x := 0, y := 0 } { wall_jumps := 0, last_wall := none }).1
    (by norm_num) (Or.inl rfl)).2.2.2

/-- Helper: `gamepad_input` on a cons is the first gamepad's events
followed by the rest. -/
theorem gamepad_input_cons (g : GamepadSnapshot) (gs : List GamepadSnapshot) :
    gamepad_input (g :: gs) = gamepadEvents g ++ gamepad_input gs := rfl

/-- C8 counterexample: an input-device snapshot whose net horizontal input
is 0 — a connected gamepad whose left-stick X axis reads exactly 0 — still
makes `gamepad_input` emit a `Move` event, namely `Move(0)`, refuting the
claim that no `Move` event is emitted at all. -/
theorem gamepad_zero_axis_emits_move :
    gamepad_input [{ left_stick_x := some 0, south_just_pressed := false }] =
      [MovementAction.Move 0] ∧
    gamepad_input [{ left_stick_x := some 0, south_just_pressed := false }] ≠ [] := by
  constructor
  · rfl
  · decide

/-- C8 (amended): the keyboard translator emits a `Move` event only when
the net horizontal keyboard input is nonzero — at 0 (no key, or both
directions pressed simultaneously) no `Move` event is emitted at all, and
when nonzero exactly `Move(direction)` is emitted; the gamepad translator
instead emits `Move(x)` whenever the left-stick X axis reports a value
`x`, including `x = 0`. -/
theorem input_translator_move_emission (k : KeyboardSnapshot)
    (gs : List GamepadSnapshot) :
    (kbDirection k = 0 → ∀ d, MovementAction.Move d ∉ keyboard_input k) ∧
    (kbDirection k ≠ 0 → MovementAction.Move (kbDirection k) ∈ keyboard_input k) ∧
    (∀ g ∈ gs, ∀ x, g.left_stick_x = some x →
      MovementAction.Move x ∈ gamepad_input gs) := by
  refine ⟨?_, ?_, ?_⟩
  · intro h0 d
    simp [keyboard_input, h0]
  · intro h0
    simp [keyboard_input, h0]
  · intro g hg x hx
    induction gs with
    | nil => cases hg
    | cons g' rest ih =>
        rw [gamepad_input_cons]
        rcases List.mem_cons.mp hg with rfl | hmem
        · exact List.mem_append_left _ (by simp [gamepadEvents, hx])
        · exact List.mem_append_right _ (ih hmem)

/-- Witness for C8 (amended) at concrete inputs: `D` pressed emits
`Move(1)` from the keyboard, and a gamepad axis at `1/2` emits
`Move(1/2)`. -/
theorem input_translator_move_emission_witness :
    MovementAction.Move (kbDirection
        { keyA := false, arrowLeft := false, keyD := true, arrowRight := false,
          space_just_pressed := false }) ∈
      keyboard_input
        { keyA := false, arrowLeft := false, keyD := true, arrowRight := false,
          space_just_pressed := false } ∧
    MovementAction.Move (1/2) ∈
      gamepad_input [{ left_stick_x := some (1/2), south_just_pressed := false }] := by
  constructor
  · exact (input_translator_move_emission
      { keyA := false, arrowLeft := false, keyD := true, arrowRight := false,
        space_just_pressed := false } []).2.1 (by norm_num [kbDirection])
  · exact (input_translator_move_emission
      { keyA := false, arrowLeft := false, keyD := true, arrowRight := false,
        space_just_pressed := false }
      [{ left_stick_x := some (1/2), south_just_pressed := false }]).2.2
      { left_stick_x := some (1/2), south_just_pressed := false }
      (by simp) (1/2) rfl

/-- C9 counterexample: a degenerate (zero-extent) collider is not rejected
at construction time: `CharacterControllerBundle::new` succeeds silently,
storing the degenerate collider and its 0.99-scaled copy as the caster
shape. -/
theorem degenerate_collider_accepted :
    Collider.degenerate
      { size_x := 0, size_y := 0, scale_x := 1, scale_y := 1 } ∧
    CharacterControllerBundle.new
        { size_x := 0, size_y := 0, scale_x := 1, scale_y := 1 } =
      { character_controller := { wall_jumps := 0, last_wall := none }
        collider := { size_x := 0, size_y := 0, scale_x := 1, scale_y := 1 }
        caster_shape := { size_x := 0, size_y := 0, scale_x := 0.99, scale_y := 0.99 }
        movement := MovementBundle.default } := by
  constructor
  · left
    norm_num [Collider.degenerate]
  · rfl

/-- C9 (amended): `CharacterControllerBundle::new` performs no validation
whatsoever: it is a total function that, for every collider — degenerate
or not — silently succeeds, storing the collider unchanged, the caster
shape as the collider rescaled to 0.99, the initial wall-jump state and
the default movement bundle; no failure is ever raised at construction
time. -/
theorem construction_never_rejects (c : Collider) :
    CharacterControllerBundle.new c =
      { character_controller := { wall_jumps := 0, last_wall := none }
        collider := c
        caster_shape := c.set_scale 0.99 0.99
        movement := MovementBundle.default } := rfl

/-- Helper: a single movement step increases the wall-jump counter by at
most one. -/
theorem wall_jumps_step_le (p : MovementParams) (dt : ℚ) (g : Grounded)
    (e : MovementAction) (v : LinearVelocity) (c : CharacterController) :
    (movementStep p dt g e v c).2.wall_jumps ≤ c.wall_jumps + 1 := by
  cases e with
  | Move d => exact Nat.le_succ _
  | Jump =>
      cases g with
      | None => exact Nat.le_succ _
      | Ground => exact Nat.zero_le _
      | LeftWall =>
          by_cases hc : c.wall_jumps = 0 ∨ c.last_wall ≠ some Grounded.LeftWall
          · simp only [movementStep, if_pos hc]
            exact Nat.mod_le _ _
          · simp only [movementStep, if_neg hc]
            exact Nat.le_succ _
      | RightWall =>
          by_cases hc : c.wall_jumps = 0 ∨ c.last_wall ≠ some Grounded.RightWall
          · simp only [movementStep, if_pos hc]
            exact Nat.mod_le _ _
          · simp only [movementStep, if_neg hc]
            exact Nat.le_succ _

/-- Helper: a single movement step preserves the wall-jump bookkeeping
invariant, provided the counter is below `u32::MAX` so the increment does
not wrap. -/
theorem wallInv_step_bounded (p : MovementParams) (dt : ℚ) (g : Grounded)
    (e : MovementAction) (v : LinearVelocity) (c : CharacterController)
    (h : wallInv c) (hb : c.wall_jumps + 1 < 2 ^ 32) :
    wallInv (movementStep p dt g e v c).2 := by
  have hmod : (c.wall_jumps + 1) % 4294967296 = c.wall_jumps + 1 :=
    Nat.mod_eq_of_lt (by simpa using hb)
  cases e with
  | Move d => simpa [movementStep] using h
  | Jump =>
      cases g with
      | None => simpa [movementStep] using h
      | Ground => simp [movementStep, wallInv]
      | LeftWall =>
          by_cases hc : c.wall_jumps = 0 ∨ c.last_wall ≠ some Grounded.LeftWall
          · simp [movementStep, if_pos hc, wallInv, hmod]
          · simpa [movementStep, if_neg hc] using h
      | RightWall =>
          by_cases hc : c.wall_jumps = 0 ∨ c.last_wall ≠ some Grounded.RightWall
          · simp [movementStep, if_pos hc, wallInv, hmod]
          · simpa [movementStep, if_neg hc] using h

/-- Helper: running an event trace short enough that the counter can
never reach `u32::MAX` from an invariant state keeps the invariant. -/
theorem wallInv_runEvents_bounded (p : MovementParams) (dt : ℚ)
    (trace : List (Grounded × MovementAction)) (v : LinearVelocity)
    (c : CharacterController) (h : wallInv c)
    (hb : c.wall_jumps + trace.length < 2 ^ 32) :
    wallInv (runEvents p dt trace (v, c)).2 := by
  induction trace generalizing v c with
  | nil => exact h
  | cons ge rest ih =>
      obtain ⟨g, e⟩ := ge
      rw [List.length_cons] at hb
      have hstep := wall_jumps_step_le p dt g e v c
      exact ih (movementStep p dt g e v c).1 (movementStep p dt g e v c).2
        (wallInv_step_bounded p dt g e v c h (by omega)) (by omega)

/-- C10 counterexample: the state `wall_jumps = u32::MAX = 4294967295`,
`last_wall = some LeftWall` satisfies the equivalence
`wall_jumps = 0 ↔ last_wall = None` (and is reachable by 4294967295
alternating wall jumps starting off the left wall), yet a right-wall jump
from it — permitted since the last wall differs — wraps the `u32` counter
to 0 while `last_wall` becomes `some RightWall`, so the movement
operation does not preserve the equivalence. -/
theorem wall_count_iff_last_wall_counterexample :
    wallInv { wall_jumps := 4294967295, last_wall := some Grounded.LeftWall } ∧
    ¬ wallInv (movementStep { acceleration := 30, jump_impulse := 7 } 0.1
        Grounded.RightWall MovementAction.Jump { x := 0, y := 0 }
        { wall_jumps := 4294967295, last_wall := some Grounded.LeftWall }).2 := by
  constructor
  · simp [wallInv]
  · simp [wallInv, movementStep]

/-- C10 (amended): in every state reachable from the initial wall-jump
state (`wall_jumps = 0`, `last_wall = None`) by a sequence of fewer than
`2 ^ 32` events under any contact classifications, `wall_jumps = 0` holds
iff `last_wall = None`; and every single movement step preserves this
equivalence from any state satisfying it whose counter is below
`u32::MAX` (at `u32::MAX` the wrapping `u32` increment of a permitted
wall jump breaks the equivalence). -/
theorem wall_count_iff_last_wall (p : MovementParams) (dt : ℚ)
    (trace : List (Grounded × MovementAction)) (v : LinearVelocity)
    (g : Grounded) (e : MovementAction) (v' : LinearVelocity)
    (c : CharacterController) (h : wallInv c)
    (hb : c.wall_jumps + 1 < 2 ^ 32) (ht : trace.length < 2 ^ 32) :
    ((runEvents p dt trace (v, { wall_jumps := 0, last_wall := none })).2.wall_jumps = 0 ↔
      (runEvents p dt trace (v, { wall_jumps := 0, last_wall := none })).2.last_wall = none) ∧
    ((movementStep p dt g e v' c).2.wall_jumps = 0 ↔
      (movementStep p dt g e v' c).2.last_wall = none) :=
  ⟨wallInv_runEvents_bounded p dt trace v { wall_jumps := 0, last_wall := none }
      (by simp [wallInv]) (by simpa using ht),
   wallInv_step_bounded p dt g e v' c h hb⟩

/-- Witness for C10 (amended) at a concrete input: after the trace
ground-jump, left-wall-jump, right-wall-jump the invariant still holds,
and a single right-wall jump from the initial state preserves it. -/
theorem wall_count_iff_last_wall_witness :
    ((runEvents { acceleration := 30, jump_impulse := 7 } 0.1
        [(Grounded.Ground, MovementAction.Jump),
         (Grounded.LeftWall, MovementAction.Jump),
         (Grounded.RightWall, MovementAction.Jump)]
        ({ x := 0, y := 0 }, { wall_jumps := 0, last_wall := none })).2.wall_jumps = 0 ↔
      (runEvents { acceleration := 30, jump_impulse := 7 } 0.1
        [(Grounded.Ground, MovementAction.Jump),
         (Grounded.LeftWall, MovementAction.Jump),
         (Grounded.RightWall, MovementAction.Jump)]
        ({ x := 0, y := 0 }, { wall_jumps := 0, last_wall := none })).2.last_wall = none) ∧
    ((movementStep { acceleration := 30, jump_impulse := 7 } 0.1
        Grounded.RightWall MovementAction.Jump { x := 0, y := 0 }
        { wall_jumps := 0, last_wall := none }).2.wall_jumps = 0 ↔
      (movementStep { acceleration := 30, jump_impulse := 7 } 0.1
        Grounded.RightWall MovementAction.Jump { x := 0, y := 0 }
        { wall_jumps := 0, last_wall := none }).2.last_wall = none) :=
  wall_count_iff_last_wall { acceleration := 30, jump_impulse := 7 } 0.1
    [(Grounded.Ground, MovementAction.Jump),
     (Grounded.LeftWall, MovementAction.Jump),
     (Grounded.RightWall, MovementAction.Jump)]
    { x := 0, y := 0 } Grounded.RightWall MovementAction.Jump { x := 0, y := 0 }
    { wall_jumps := 0, last_wall := none } (by simp [wallInv]) (by norm_num)
    (by decide)
